import Mathlib

/-!
Shallow embedding of the role-gated authentication and token-lifecycle
subsystem of the agritourism repository.

Times are modelled as `Nat` (milliseconds since the epoch, matching the
JavaScript `Date` values the code compares numerically).  JavaScript
truthiness of strings (`""` is falsy) and of nullable fields is modelled
explicitly where the code relies on it.
-/

namespace Agritourism

/-- JavaScript truthiness of a string: the empty string is falsy. -/
def truthyStr (s : String) : Bool := s ≠ ""

/-- JavaScript truthiness of a nullable string (`null` and `""` are falsy). -/
def truthyOptStr : Option String → Bool
  | none => false
  | some s => s ≠ ""

/-! ## Role hierarchy evaluator (src/lib/roles.ts)

`const ORDER: Record<Role, number> = { VISITOR: 0, OWNER: 1, EDITOR: 2, ADMIN: 3 };`
`export function hasRole(current, required) { return ORDER[current] >= ORDER[required]; }`

At runtime the roles are strings; an indexing miss yields `undefined`, and in
JavaScript every `>=` comparison involving `undefined` evaluates to `false`.
We model the record as a finite lookup table over strings. -/

def ORDER : List (String × Nat) :=
  [("VISITOR", 0), ("OWNER", 1), ("EDITOR", 2), ("ADMIN", 3)]

/-- `ORDER[r]` as JavaScript property lookup: `none` models `undefined`. -/
def orderOf (r : String) : Option Nat :=
  (ORDER.find? (fun p => p.1 = r)).map (fun p => p.2)

/-- `hasRole(current, required)`; a comparison with `undefined` is `false`. -/
def hasRole (current required : String) : Bool :=
  match orderOf current, orderOf required with
  | some a, some b => b ≤ a
  | _, _ => false

/-- Rank function written from the claim's words (not from the source):
"any unknown or malformed role value is treated as the lowest rank".
Used only to compare the claimed semantics with `hasRole`. -/
def claimRank (r : String) : Nat := (orderOf r).getD 0

/-- The four role names of the source enumeration. -/
def knownRoles : List String := ["VISITOR", "OWNER", "EDITOR", "ADMIN"]

/-! ## Token rows and the EmailVerification / PasswordReset consume
     operations (src/src/lib/tokens.ts) -/

/-- One row of the `emailVerificationToken` / `passwordResetToken` tables. -/
structure TokenRow where
  email : String
  token : String
  expires : Nat
deriving Repr, DecidableEq

/-- `findUnique({ where: { token } })` over a token table. -/
def findTokenRow (st : List TokenRow) (t : String) : Option TokenRow :=
  st.find? (fun r => r.token = t)

/-- `issueEmailVerificationToken(email)`: 24h TTL, persists, returns value.
`tok` stands for the random value drawn by `makeToken()`. -/
def issueEmailVerificationToken (email tok : String) (now : Nat)
    (st : List TokenRow) : String × List TokenRow :=
  (tok, st ++ [{ email := email, token := tok, expires := now + 1000 * 60 * 60 * 24 }])

/-- `issuePasswordResetToken(email)`: 1h TTL, persists, returns value. -/
def issuePasswordResetToken (email tok : String) (now : Nat)
    (st : List TokenRow) : String × List TokenRow :=
  (tok, st ++ [{ email := email, token := tok, expires := now + 1000 * 60 * 60 * 1 }])

/-- `consumeEmailVerificationToken(token)`:
returns `null` if the row is absent or `row.expires < new Date()`;
otherwise deletes the row and returns its email.
Result: (returned email or null, table afterwards). -/
def consumeEmailVerificationToken (t : String) (st : List TokenRow)
    (now : Nat) : Option String × List TokenRow :=
  match findTokenRow st t with
  | none => (none, st)
  | some row =>
      if row.expires < now then (none, st)
      else (some row.email, st.filter (fun r => ¬ r.token = t))

/-- `consumePasswordResetToken(token)`: same body over the reset table. -/
def consumePasswordResetToken (t : String) (st : List TokenRow)
    (now : Nat) : Option String × List TokenRow :=
  match findTokenRow st t with
  | none => (none, st)
  | some row =>
      if row.expires < now then (none, st)
      else (some row.email, st.filter (fun r => ¬ r.token = t))

/-! ## Accounts and the credentials `authorize` callback (src/auth.ts) -/

/-- One row of the `user` table (the fields the auth subsystem reads). -/
structure User where
  id : String
  email : String
  name : Option String := none
  image : Option String := none
  passwordHash : Option String := none
  role : String := "VISITOR"
  emailVerified : Option Nat := none
  deletedAt : Option Nat := none
  status : String := ""
deriving Repr, DecidableEq

/-- `prisma.user.findUnique({ where: { email } })`. -/
def findUserByEmail (db : List User) (e : String) : Option User :=
  db.find? (fun u => u.email = e)

/-- `prisma.user.findUnique({ where: { id } })`. -/
def findUserById (db : List User) (i : String) : Option User :=
  db.find? (fun u => u.id = i)

/-- `String.prototype.toLowerCase`, modelled character-wise. -/
def lowerString (s : String) : String := ⟨s.data.map Char.toLower⟩

/-- `String.prototype.toUpperCase`, modelled character-wise. -/
def upperString (s : String) : String := ⟨s.data.map Char.toUpper⟩

/-- `String.prototype.trim`: strip whitespace from both ends. -/
def trimString (s : String) : String :=
  ⟨((s.data.dropWhile Char.isWhitespace).reverse.dropWhile
      Char.isWhitespace).reverse⟩

/-- `String(creds?.email ?? "").toLowerCase().trim()`. -/
def normalizeEmail (e : Option String) : String :=
  trimString (lowerString (e.getD ""))

/-- The object `authorize` returns on success (`id`, `email`, `name`,
`image`, `role`). -/
structure AuthUser where
  id : String
  email : String
  name : Option String := none
  image : Option String := none
  role : String := "VISITOR"
deriving Repr, DecidableEq

/-- The credentials `authorize(creds)` callback. Throws are modelled as
`Except.error` carrying the thrown message; `verify` stands for
`bcrypt.compare(password, storedHash)`. -/
def authorize (db : List User) (verify : String → String → Bool)
    (credEmail credPassword : Option String) : Except String AuthUser :=
  let email := normalizeEmail credEmail
  let password := credPassword.getD ""
  if ¬ truthyStr email ∨ ¬ truthyStr password then .error "CredentialsSignin"
  else
    match findUserByEmail db email with
    | none => .error "CredentialsSignin"
    | some user =>
        if ¬ truthyOptStr user.passwordHash ∨ user.deletedAt.isSome then
          .error "CredentialsSignin"
        else if user.emailVerified.isNone then .error "EMAIL_NOT_VERIFIED"
        else if ¬ verify password (user.passwordHash.getD "") then
          .error "CredentialsSignin"
        else
          .ok { id := user.id, email := user.email, name := user.name,
                image := user.image, role := user.role }

/-- The JWT claims bundle; the `jwt` callback guarantees the three fields
always exist, with defaults `""` / `"VISITOR"` / `null`. -/
structure Token where
  id : String := ""
  role : String := "VISITOR"
  deletedAt : Option String := none
deriving Repr, DecidableEq

/-- `Date.prototype.toISOString` on an epoch-milliseconds value, abstracted
to a marker character followed by the decimal rendering; what matters to
the rest of the system is only that it is a non-empty (truthy) string. -/
def isoString (d : Nat) : String := ⟨'T' :: (toString d).data⟩

/-- The `jwt({ token, user })` callback: on initial sign-in (`user`
present) it re-reads the account and synchronizes `id`, `role` and the
soft-delete marker into the claims; with no `user` it returns the claims
unchanged (after installing the safe defaults, which the `Token` structure
carries). -/
def jwtCallback (db : List User) (token : Token) (user : Option AuthUser) :
    Token :=
  match user with
  | none => token
  | some u =>
      match findUserById db u.id with
      | some d =>
          { id := d.id, role := d.role, deletedAt := d.deletedAt.map isoString }
      | none =>
          { id := if truthyStr token.id then token.id else u.id,
            role := if truthyStr token.role then token.role
                    else if truthyStr u.role then u.role else "VISITOR",
            deletedAt := token.deletedAt }

/-! ## Request gate (src/middleware.ts) -/

/-- `String.prototype.startsWith`: prefix test on the character sequence. -/
def jsStartsWith (s pre : String) : Bool := List.isPrefixOf pre.data s.data

/-- The gate's decision: pass the request through, or redirect to the
sign-in entry point carrying an `error` query indicator. -/
inductive GateDecision where
  | next : GateDecision
  | redirectLogin : String → GateDecision
deriving Repr, DecidableEq

/-- The `publicPaths` list of the `authorized` callback. -/
def publicPaths : List String :=
  ["/", "/login", "/register", "/verify", "/reset", "/reset-request",
   "/api/auth/register", "/api/auth/reset", "/api/auth/reset-request",
   "/api/auth/verify", "/api/invite/inspect"]

/-- The `authorized({ token, req })` callback: public paths pass; dashboard,
owner, listings, admin paths require a token; everything else is public. -/
def authorized (p : String) (token : Option Token) : Bool :=
  if publicPaths.any (fun x => p = x || jsStartsWith p (x ++ "/")) then true
  else if jsStartsWith p "/dashboard" || jsStartsWith p "/owner"
      || jsStartsWith p "/api/listings" then token.isSome
  else if jsStartsWith p "/admin" || jsStartsWith p "/api/admin" then
    token.isSome
  else true

/-- The `middleware(req)` body: soft-deleted-claims lockout first (allowing
only the login/register/reset/verify entry points and home), then the
admin-route role check. `role` and `deletedAt` are the optional-chained
token fields (`undefined` when no token). -/
def middleware (p : String) (token : Option Token) : GateDecision :=
  let role : Option String := token.map (fun t => t.role)
  let deletedAt : Option String := token.bind (fun t => t.deletedAt)
  if truthyOptStr deletedAt ∧ ¬ jsStartsWith p "/login" ∧
      ¬ jsStartsWith p "/register" ∧ ¬ jsStartsWith p "/reset" ∧
      ¬ jsStartsWith p "/verify" ∧ p ≠ "/" then
    .redirectLogin "AccessDenied"
  else if jsStartsWith p "/admin" ∨ jsStartsWith p "/api/admin" then
    if role ≠ some "ADMIN" ∧ role ≠ some "EDITOR" then
      .redirectLogin "AccessDenied"
    else .next
  else .next

/-- Modelled from the spec: the `withAuth` wrapper (the `next-auth`
library, not part of this repository) intercepts a request whose
`authorized` callback returns false and "redirect[s] to sign-in with
access-denied"; only requests the callback accepts reach the `middleware`
body. -/
def requestGate (p : String) (token : Option Token) : GateDecision :=
  if authorized p token then middleware p token
  else .redirectLogin "AccessDenied"

/-! ## Activity log (src/src/lib/activity.ts) -/

/-- `headers().get(name)`: `null` when the header is absent. -/
def headerGet (hs : List (String × String)) (n : String) : Option String :=
  (hs.find? (fun q => q.1 = n)).map (fun q => q.2)

/-- The record `logActivity` hands to `prisma.activityLog.create`. -/
structure ActivityRow where
  userId : Option String
  action : String
  details : Option String
  ip : Option String
  userAgent : Option String
deriving Repr, DecidableEq

/-- The `catch {}` around the whole body of `logActivity`: any failure is
swallowed ("Never throw from logging"). -/
def swallowErr (x : Except String Unit) : Except String Unit :=
  match x with
  | .error _ => .ok ()
  | .ok _ => .ok ()

/-- `logActivity(opts)`. The ambient collaborators are passed explicitly:
`headersRes` is the outcome of `headers()` and `sink` the outcome of the
`activityLog.create` write; either may fail. -/
def logActivity (userId : Option String) (action : String)
    (details : Option String)
    (headersRes : Except String (List (String × String)))
    (sink : ActivityRow → Except String Unit) : Except String Unit :=
  swallowErr (do
    let h ← headersRes
    let forwarded := (headerGet h "x-forwarded-for").getD ""
    let real := (headerGet h "x-real-ip").getD ""
    let first := trimString
      (((if truthyStr forwarded then forwarded else real).splitOn ",").headD "")
    let ip : Option String := if truthyStr first then some first else none
    let ua : Option String := headerGet h "user-agent"
    sink { userId := userId, action := action, details := details,
           ip := ip, userAgent := ua })

/-- The `signIn({ user })` callback: best-effort log, then `return true`. -/
def signInCallback (user : Option AuthUser)
    (headersRes : Except String (List (String × String)))
    (sink : ActivityRow → Except String Unit) : Except String Bool := do
  let uid : Option String :=
    match user with
    | some u => if truthyStr u.id then some u.id else none
    | none => none
  let _ ← logActivity uid "AUTH_SIGN_IN" none headersRes sink
  pure true

/-- The `signOut({ token })` event handler. -/
def signOutEvent (token : Option Token)
    (headersRes : Except String (List (String × String)))
    (sink : ActivityRow → Except String Unit) : Except String Unit := do
  let uid : Option String :=
    match token with
    | some t => if truthyStr t.id then some t.id else none
    | none => none
  let _ ← logActivity uid "AUTH_SIGN_OUT" none headersRes sink
  pure ()

/-! ## Password-reset request (src/app/api/auth/reset-request/route.ts) -/

/-- A JSON response: HTTP status and body. -/
structure JsonResp where
  status : Nat
  body : String
deriving Repr, DecidableEq

/-- `POST` of the reset-request route. Besides the response it returns the
password-reset token table afterwards and the reset emails dispatched
(recipient, token); `freshTok` models the random token value.  The audit
write is fire-and-forget and not part of the observable result. -/
def resetRequestPOST (emailField : Option String) (db : List User)
    (resetStore : List TokenRow) (freshTok : String) (now : Nat) :
    JsonResp × List TokenRow × List (String × String) :=
  if ¬ truthyOptStr emailField then
    ({ status := 400, body := "Missing email" }, resetStore, [])
  else
    match findUserByEmail db (normalizeEmail emailField) with
    | some user =>
        if user.deletedAt.isNone then
          ({ status := 200, body := "ok" },
           (issuePasswordResetToken user.email freshTok now resetStore).2,
           [(user.email, freshTok)])
        else ({ status := 200, body := "ok" }, resetStore, [])
    | none => ({ status := 200, body := "ok" }, resetStore, [])

/-! ## Registration with fused invite redemption
     (src/app/api/auth/register/route.ts, src/src/lib/tokens.ts) -/

/-- One row of the `inviteToken` table. -/
structure InviteRow where
  email : String
  role : String
  token : String
  expires : Nat
  usedAt : Option Nat := none
deriving Repr, DecidableEq

/-- The durable state the register route reads and writes. -/
structure RegState where
  users : List User
  invites : List InviteRow
  verifTokens : List TokenRow
deriving Repr, DecidableEq

/-- The parsed JSON body `{ name, email, password, invite, as }`. -/
structure RegBody where
  name : Option String := none
  email : Option String := none
  password : Option String := none
  invite : Option String := none
  asRole : Option String := none
deriving Repr, DecidableEq

/-- `POST /api/auth/register`: missing fields and duplicate emails are
rejected; an invite must exist, be unexpired, unused and match the
normalized email, and then carries its role; otherwise `as=OWNER` or the
VISITOR default applies. On success the account is created (with
`status: "PENDING"`), the invite is marked used, and a verification token
is issued for the new account's email. `hashFn` models `bcrypt.hash`,
`newId` the generated row id, `freshTok` the random verification token;
the verification email and audit log are fire-and-forget effects outside
the durable state. -/
def registerPOST (b : RegBody) (st : RegState) (now : Nat)
    (hashFn : String → String) (newId freshTok : String) :
    JsonResp × RegState :=
  if ¬ truthyOptStr b.email ∨ ¬ truthyOptStr b.password then
    ({ status := 400, body := "Missing fields" }, st)
  else
    let normalized := normalizeEmail b.email
    match findUserByEmail st.users normalized with
    | some _ => ({ status := 400, body := "Email already in use" }, st)
    | none =>
        if truthyOptStr b.invite then
          let tv := b.invite.getD ""
          match st.invites.find? (fun i => i.token = tv) with
          | none => ({ status := 400, body := "Invite invalid or expired" }, st)
          | some inv =>
              if inv.expires < now ∨ inv.usedAt.isSome then
                ({ status := 400, body := "Invite invalid or expired" }, st)
              else if inv.email ≠ normalized then
                ({ status := 400, body := "Invite email mismatch" }, st)
              else
                ({ status := 200, body := "ok" },
                 { users := st.users ++
                     [{ id := newId, email := normalized,
                        name := if truthyOptStr b.name then b.name else none,
                        passwordHash := some (hashFn (b.password.getD "")),
                        role := inv.role, status := "PENDING" }],
                   invites := st.invites.map (fun i =>
                     if i.token = tv then { i with usedAt := some now } else i),
                   verifTokens :=
                     (issueEmailVerificationToken normalized freshTok now
                       st.verifTokens).2 })
        else
          let role := if upperString (b.asRole.getD "") = "OWNER" then "OWNER"
                      else "VISITOR"
          ({ status := 200, body := "ok" },
           { users := st.users ++
               [{ id := newId, email := normalized,
                  name := if truthyOptStr b.name then b.name else none,
                  passwordHash := some (hashFn (b.password.getD "")),
                  role := role, status := "PENDING" }],
             invites := st.invites,
             verifTokens :=
               (issueEmailVerificationToken normalized freshTok now
                 st.verifTokens).2 })

/-- The serialized soft-delete marker is a non-empty, hence truthy, string. -/
theorem isoString_truthy (d : Nat) : truthyStr (isoString d) = true := by
  simp [truthyStr, isoString, String.ext_iff]

/-- With a token present, the `authorized` callback accepts every path. -/
theorem authorized_of_token (p : String) (tok : Token) :
    authorized p (some tok) = true := by
  unfold authorized
  split_ifs <;> simp

/-- After deleting every row with token value `t`, lookup of `t` misses. -/
theorem findTokenRow_filter_self (st : List TokenRow) (t : String) :
    findTokenRow (st.filter (fun r => ¬ r.token = t)) t = none := by
  rw [findTokenRow, List.find?_eq_none]
  intro x hx
  have hmem := List.mem_filter.mp hx
  simp only [decide_not, Bool.not_eq_true', decide_eq_false_iff_not] at hmem
  simp [hmem.2]

/-- C3 counterexample: the claim treats an unknown role as the lowest rank,
so `roleSatisfies("GUEST", "VISITOR")` would have to be `true`
(`rank GUEST = rank VISITOR = 0`); the code returns `false`, because the
JavaScript comparison `undefined >= 0` is `false`. -/
theorem C3_unknown_role_counterexample :
    hasRole "GUEST" "VISITOR" = false ∧ claimRank "VISITOR" ≤ claimRank "GUEST" := by
  constructor <;> decide

/-- C3 (amended): `hasRole` is a pure total function with
`rank VISITOR = 0 < rank OWNER = 1 < rank EDITOR = 2 < rank ADMIN = 3`;
on the four known roles it returns `true` iff `rank current ≥ rank required`,
it is reflexive on known roles, `hasRole VISITOR ADMIN = false`,
`hasRole ADMIN VISITOR = true`; an unknown or malformed role on either side
makes the comparison `false` (strictly fail closed: an unknown role satisfies
no requirement, and no role satisfies an unknown requirement) — rather than
being ranked lowest. -/
theorem C3_hasRole_rank_order :
    (∀ c r a b, orderOf c = some a → orderOf r = some b →
      hasRole c r = decide (b ≤ a)) ∧
    (orderOf "VISITOR" = some 0 ∧ orderOf "OWNER" = some 1 ∧
      orderOf "EDITOR" = some 2 ∧ orderOf "ADMIN" = some 3) ∧
    (∀ r, r ∈ knownRoles → hasRole r r = true) ∧
    hasRole "VISITOR" "ADMIN" = false ∧
    hasRole "ADMIN" "VISITOR" = true ∧
    (∀ c r, orderOf c = none ∨ orderOf r = none → hasRole c r = false) := by
  refine ⟨?_, by decide, ?_, by decide, by decide, ?_⟩
  · intro c r a b hc hr
    simp [hasRole, hc, hr]
  · intro r hr
    simp only [knownRoles, List.mem_cons, List.not_mem_nil, or_false] at hr
    rcases hr with rfl | rfl | rfl | rfl <;> decide
  · intro c r h
    rcases h with h | h
    · cases hr : orderOf r <;> simp [hasRole, h, hr]
    · cases hc : orderOf c <;> simp [hasRole, h, hc]

/-- C3 witness: the amended theorem applied at concrete roles. -/
theorem C3_hasRole_rank_order_witness :
    hasRole "EDITOR" "OWNER" = decide ((1 : Nat) ≤ 2) ∧
    hasRole "OWNER" "OWNER" = true ∧
    hasRole "ADMIN" "SUPERADMIN" = false :=
  ⟨C3_hasRole_rank_order.1 "EDITOR" "OWNER" 2 1 (by decide) (by decide),
   C3_hasRole_rank_order.2.2.1 "OWNER" (by decide),
   C3_hasRole_rank_order.2.2.2.2.2 "ADMIN" "SUPERADMIN" (Or.inr (by decide))⟩

/-- C1: `authorize` looks the account up under the lower-cased, trimmed
email; it fails with `CredentialsSignin` (InvalidCredentials) when the
account is absent, when no credential hash is stored, or when the
soft-delete timestamp is non-null; it fails with `EMAIL_NOT_VERIFIED` when
the verification timestamp is null; it fails with `CredentialsSignin` when
the secret does not match the stored hash; on success it returns the
account's id and role, and the `jwt` callback synchronizes the account's
soft-delete marker (and id/role) into the claims. -/
theorem C1_authenticate :
    ∀ (db : List User) (verify : String → String → Bool)
      (e p : Option String),
      (findUserByEmail db (normalizeEmail e) = none →
        authorize db verify e p = .error "CredentialsSignin") ∧
      (∀ u, findUserByEmail db (normalizeEmail e) = some u →
        ¬ truthyOptStr u.passwordHash →
        authorize db verify e p = .error "CredentialsSignin") ∧
      (∀ u, findUserByEmail db (normalizeEmail e) = some u →
        u.deletedAt.isSome →
        authorize db verify e p = .error "CredentialsSignin") ∧
      (∀ u, findUserByEmail db (normalizeEmail e) = some u →
        truthyStr (normalizeEmail e) → truthyStr (p.getD "") →
        truthyOptStr u.passwordHash → u.deletedAt = none →
        u.emailVerified = none →
        authorize db verify e p = .error "EMAIL_NOT_VERIFIED") ∧
      (∀ u, findUserByEmail db (normalizeEmail e) = some u →
        truthyStr (normalizeEmail e) → truthyStr (p.getD "") →
        truthyOptStr u.passwordHash → u.deletedAt = none →
        u.emailVerified.isSome →
        verify (p.getD "") (u.passwordHash.getD "") = false →
        authorize db verify e p = .error "CredentialsSignin") ∧
      (∀ u, findUserByEmail db (normalizeEmail e) = some u →
        truthyStr (normalizeEmail e) → truthyStr (p.getD "") →
        truthyOptStr u.passwordHash → u.deletedAt = none →
        u.emailVerified.isSome →
        verify (p.getD "") (u.passwordHash.getD "") = true →
        authorize db verify e p
          = .ok { id := u.id, email := u.email, name := u.name,
                  image := u.image, role := u.role }) ∧
      (∀ (tok : Token) (au : AuthUser) (d : User),
        findUserById db au.id = some d →
        jwtCallback db tok (some au)
          = { id := d.id, role := d.role,
              deletedAt := d.deletedAt.map isoString }) := by
  intro db verify e p
  refine ⟨?_, ?_, ?_, ?_, ?_, ?_, ?_⟩
  · intro h
    by_cases hc : ¬ truthyStr (normalizeEmail e) ∨ ¬ truthyStr (p.getD "") <;>
      simp [authorize, h, hc]
  · intro u hu hhash
    by_cases hc : ¬ truthyStr (normalizeEmail e) ∨ ¬ truthyStr (p.getD "") <;>
      simp [authorize, hu, hhash, hc]
  · intro u hu hdel
    by_cases hc : ¬ truthyStr (normalizeEmail e) ∨ ¬ truthyStr (p.getD "") <;>
      simp [authorize, hu, hdel, hc]
  · intro u hu he hp hhash hdel hver
    simp [authorize, hu, he, hp, hhash, hdel, hver]
  · intro u hu he hp hhash hdel hver hcmp
    have hne := Option.isSome_iff_ne_none.mp hver
    simp [authorize, hu, he, hp, hhash, hdel, hver, hcmp, hne]
  · intro u hu he hp hhash hdel hver hcmp
    have hne := Option.isSome_iff_ne_none.mp hver
    simp [authorize, hu, he, hp, hhash, hdel, hver, hcmp, hne]
  · intro tok au d hd
    simp [jwtCallback, hd]

/-- C1 witness: a concrete two-account store; an unverified account fails
with `EMAIL_NOT_VERIFIED`, a verified one authenticates and its soft-delete
marker is synchronized into the claims. -/
theorem C1_authenticate_witness :
    authorize
        [{ id := "u1", email := "a@x.com", passwordHash := some "H1",
           emailVerified := none },
         { id := "u2", email := "b@x.com", passwordHash := some "H2#",
           emailVerified := some 7, role := "OWNER" }]
        (fun pw h => pw ++ "#" = h)
        (some " A@x.com ") (some "pw") = .error "EMAIL_NOT_VERIFIED" ∧
    authorize
        [{ id := "u1", email := "a@x.com", passwordHash := some "H1",
           emailVerified := none },
         { id := "u2", email := "b@x.com", passwordHash := some "H2#",
           emailVerified := some 7, role := "OWNER" }]
        (fun pw h => pw ++ "#" = h)
        (some "b@x.com") (some "H2")
      = .ok { id := "u2", email := "b@x.com", role := "OWNER" } ∧
    jwtCallback
        [{ id := "u2", email := "b@x.com", passwordHash := some "H2#",
           emailVerified := some 7, role := "OWNER", deletedAt := some 42 }]
        {} (some { id := "u2", email := "b@x.com", role := "OWNER" })
      = { id := "u2", role := "OWNER", deletedAt := some (isoString 42) } := by
  refine ⟨?_, ?_, ?_⟩
  · exact (C1_authenticate
      [{ id := "u1", email := "a@x.com", passwordHash := some "H1",
         emailVerified := none },
       { id := "u2", email := "b@x.com", passwordHash := some "H2#",
         emailVerified := some 7, role := "OWNER" }]
      (fun pw h => pw ++ "#" = h)
      (some " A@x.com ") (some "pw")).2.2.2.1
      { id := "u1", email := "a@x.com", passwordHash := some "H1",
        emailVerified := none }
      (by decide) (by decide) (by decide) (by decide) (by decide) (by decide)
  · exact (C1_authenticate
      [{ id := "u1", email := "a@x.com", passwordHash := some "H1",
         emailVerified := none },
       { id := "u2", email := "b@x.com", passwordHash := some "H2#",
         emailVerified := some 7, role := "OWNER" }]
      (fun pw h => pw ++ "#" = h)
      (some "b@x.com") (some "H2")).2.2.2.2.2.1
      { id := "u2", email := "b@x.com", passwordHash := some "H2#",
        emailVerified := some 7, role := "OWNER" }
      (by decide) (by decide) (by decide) (by decide) (by decide) (by decide)
      (by decide)
  · exact (C1_authenticate
      [{ id := "u2", email := "b@x.com", passwordHash := some "H2#",
         emailVerified := some 7, role := "OWNER", deletedAt := some 42 }]
      (fun pw h => pw ++ "#" = h) none none).2.2.2.2.2.2
      {} { id := "u2", email := "b@x.com", role := "OWNER" }
      { id := "u2", email := "b@x.com", passwordHash := some "H2#",
        emailVerified := some 7, role := "OWNER", deletedAt := some 42 }
      (by decide)

/-- C6: for an existing account, any secret the hash verifier rejects makes
`authorize` fail with exactly `.error "CredentialsSignin"`, which is the
same value — indistinguishable in shape — as the failure produced for an
email with no account at all. -/
theorem C6_wrong_secret_indistinguishable :
    ∀ (db : List User) (verify : String → String → Bool)
      (e p e2 p2 : Option String) (u : User),
      findUserByEmail db (normalizeEmail e) = some u →
      truthyOptStr u.passwordHash → u.deletedAt = none →
      u.emailVerified.isSome →
      verify (p.getD "") (u.passwordHash.getD "") = false →
      findUserByEmail db (normalizeEmail e2) = none →
      authorize db verify e p = .error "CredentialsSignin" ∧
      authorize db verify e p = authorize db verify e2 p2 := by
  intro db verify e p e2 p2 u hu hhash hdel hver hcmp hmiss
  have hne := Option.isSome_iff_ne_none.mp hver
  have h1 : authorize db verify e p = .error "CredentialsSignin" := by
    by_cases hc : ¬ truthyStr (normalizeEmail e) ∨ ¬ truthyStr (p.getD "") <;>
      simp [authorize, hu, hhash, hdel, hver, hcmp, hne, hc]
  have h2 : authorize db verify e2 p2 = .error "CredentialsSignin" := by
    by_cases hc : ¬ truthyStr (normalizeEmail e2) ∨ ¬ truthyStr (p2.getD "") <;>
      simp [authorize, hmiss, hc]
  exact ⟨h1, h1.trans h2.symm⟩

/-- C6 witness: a concrete store where the wrong secret for `a@x.com` and a
lookup of the unknown `z@x.com` produce the same failure value. -/
theorem C6_wrong_secret_indistinguishable_witness :
    authorize
        [{ id := "u1", email := "a@x.com", passwordHash := some "H1",
           emailVerified := some 3 }]
        (fun pw h => pw ++ "#" = h) (some "a@x.com") (some "bad")
      = .error "CredentialsSignin" ∧
    authorize
        [{ id := "u1", email := "a@x.com", passwordHash := some "H1",
           emailVerified := some 3 }]
        (fun pw h => pw ++ "#" = h) (some "a@x.com") (some "bad")
      = authorize
        [{ id := "u1", email := "a@x.com", passwordHash := some "H1",
           emailVerified := some 3 }]
        (fun pw h => pw ++ "#" = h) (some "z@x.com") (some "any") :=
  C6_wrong_secret_indistinguishable
    [{ id := "u1", email := "a@x.com", passwordHash := some "H1",
       emailVerified := some 3 }]
    (fun pw h => pw ++ "#" = h)
    (some "a@x.com") (some "bad") (some "z@x.com") (some "any")
    { id := "u1", email := "a@x.com", passwordHash := some "H1",
      emailVerified := some 3 }
    (by decide) (by decide) (by decide) (by decide) (by decide) (by decide)

/-- C4: when the claims carry a non-null soft-delete marker (as minted by
the `jwt` callback), every path outside the allow-list — the login,
register, reset and verify entry points and home — is redirected to the
sign-in entry point with the access-denied indicator, regardless of the
role in the claims: the lockout check precedes and overrides the
role-based route protection. -/
theorem C4_softdelete_lockout :
    ∀ (p : String) (tok : Token) (d : Nat),
      tok.deletedAt = some (isoString d) →
      jsStartsWith p "/login" = false →
      jsStartsWith p "/register" = false →
      jsStartsWith p "/reset" = false →
      jsStartsWith p "/verify" = false →
      p ≠ "/" →
      requestGate p (some tok) = .redirectLogin "AccessDenied" := by
  intro p tok d hdel h1 h2 h3 h4 h5
  have hauth := authorized_of_token p tok
  have htr := isoString_truthy d
  simp [requestGate, hauth, middleware, hdel, truthyOptStr, truthyStr,
    isoString, String.ext_iff, h1, h2, h3, h4, h5]

/-- C4 witness: a soft-deleted ADMIN requesting `/admin/users` (an
administrative path the role check alone would allow) is redirected. -/
theorem C4_softdelete_lockout_witness :
    requestGate "/admin/users"
        (some { id := "u9", role := "ADMIN", deletedAt := some (isoString 42) })
      = .redirectLogin "AccessDenied" :=
  C4_softdelete_lockout "/admin/users"
    { id := "u9", role := "ADMIN", deletedAt := some (isoString 42) } 42
    rfl (by decide) (by decide) (by decide) (by decide) (by decide)

/-- C5: for every path under `/admin` or `/api/admin`: with no claims the
gate redirects to sign-in with access-denied; with claims whose role is
neither ADMIN nor EDITOR it redirects to sign-in with access-denied; with
claims that are not soft-deleted and carry role ADMIN or EDITOR it lets
the request through. -/
theorem C5_admin_role_floor :
    ∀ (p : String),
      jsStartsWith p "/admin" = true ∨ jsStartsWith p "/api/admin" = true →
      (requestGate p none = .redirectLogin "AccessDenied") ∧
      (∀ tok : Token, tok.role ≠ "ADMIN" → tok.role ≠ "EDITOR" →
        requestGate p (some tok) = .redirectLogin "AccessDenied") ∧
      (∀ tok : Token, tok.deletedAt = none →
        tok.role = "ADMIN" ∨ tok.role = "EDITOR" →
        requestGate p (some tok) = .next) := by
  intro p h
  obtain ⟨pd⟩ := p
  rcases h with h | h
  · simp only [jsStartsWith] at h
    rw [List.isPrefixOf_iff_prefix] at h
    obtain ⟨rest, hrest⟩ := h
    subst hrest
    refine ⟨?_, ?_, ?_⟩
    · simp [requestGate, authorized, publicPaths, jsStartsWith,
        List.isPrefixOf, String.ext_iff]
    · intro tok h1 h2
      have hauth := authorized_of_token ⟨'/' :: 'a' :: 'd' :: 'm' :: 'i' :: 'n' :: rest⟩ tok
      by_cases htr : truthyOptStr tok.deletedAt = true <;>
        simp [requestGate, hauth, middleware, jsStartsWith,
          List.isPrefixOf, String.ext_iff, htr, h1, h2]
    · intro tok hdel hrole
      have hauth := authorized_of_token ⟨'/' :: 'a' :: 'd' :: 'm' :: 'i' :: 'n' :: rest⟩ tok
      rcases hrole with hr | hr <;>
        simp [requestGate, hauth, middleware, jsStartsWith,
          List.isPrefixOf, String.ext_iff, hdel, hr, truthyOptStr]
  · simp only [jsStartsWith] at h
    rw [List.isPrefixOf_iff_prefix] at h
    obtain ⟨rest, hrest⟩ := h
    subst hrest
    refine ⟨?_, ?_, ?_⟩
    · simp [requestGate, authorized, publicPaths, jsStartsWith,
        List.isPrefixOf, String.ext_iff]
    · intro tok h1 h2
      have hauth := authorized_of_token
        ⟨'/' :: 'a' :: 'p' :: 'i' :: '/' :: 'a' :: 'd' :: 'm' :: 'i' :: 'n' :: rest⟩ tok
      by_cases htr : truthyOptStr tok.deletedAt = true <;>
        simp [requestGate, hauth, middleware, jsStartsWith,
          List.isPrefixOf, String.ext_iff, htr, h1, h2]
    · intro tok hdel hrole
      have hauth := authorized_of_token
        ⟨'/' :: 'a' :: 'p' :: 'i' :: '/' :: 'a' :: 'd' :: 'm' :: 'i' :: 'n' :: rest⟩ tok
      rcases hrole with hr | hr <;>
        simp [requestGate, hauth, middleware, jsStartsWith,
          List.isPrefixOf, String.ext_iff, hdel, hr, truthyOptStr]

/-- C5 witness: on `/admin/users`, no claims and an OWNER are redirected,
an active EDITOR passes. -/
theorem C5_admin_role_floor_witness :
    requestGate "/admin/users" none = .redirectLogin "AccessDenied" ∧
    requestGate "/admin/users" (some { id := "u3", role := "OWNER" })
      = .redirectLogin "AccessDenied" ∧
    requestGate "/admin/users" (some { id := "u4", role := "EDITOR" })
      = .next := by
  have h := C5_admin_role_floor "/admin/users" (Or.inl (by decide))
  exact ⟨h.1,
    h.2.1 { id := "u3", role := "OWNER" } (by decide) (by decide),
    h.2.2 { id := "u4", role := "EDITOR" } rfl (Or.inr rfl)⟩

/-- C2 counterexample: the claim requires `consume` to fail with
`TokenExpired` whenever current time ≥ the stored expiry, but with
`now = expires = 100` the code's guard `row.expires < new Date()` is false,
so the consume succeeds, returns the email and deletes the row. -/
theorem C2_consume_at_expiry_counterexample :
    consumeEmailVerificationToken "t"
        [{ email := "a@x.com", token := "t", expires := 100 }] 100
      = (some "a@x.com", []) := by
  decide

/-- C2 (amended): `consume` looks the token up by exact value; it fails when
no record with that value exists, and fails whenever current time is
strictly greater than the stored expiry (at `now = expiry` the token is still
accepted); both failures are the same `null` result (the code does not
distinguish `TokenNotFound` from `TokenExpired`) and leave the table
unchanged; on success it deletes the record and returns the associated email,
so exactly one consume call succeeds per token and every subsequent consume
with the same value fails as not-found. Both the EmailVerification and the
PasswordReset consume operations behave this way. -/
theorem C2_consume_single_use :
    ∀ (st : List TokenRow) (t : String) (now : Nat),
      (findTokenRow st t = none →
        consumeEmailVerificationToken t st now = (none, st) ∧
        consumePasswordResetToken t st now = (none, st)) ∧
      (∀ row, findTokenRow st t = some row → row.expires < now →
        consumeEmailVerificationToken t st now = (none, st) ∧
        consumePasswordResetToken t st now = (none, st)) ∧
      (∀ row, findTokenRow st t = some row → now ≤ row.expires →
        consumeEmailVerificationToken t st now
            = (some row.email, st.filter (fun r => ¬ r.token = t)) ∧
        consumePasswordResetToken t st now
            = (some row.email, st.filter (fun r => ¬ r.token = t)) ∧
        (∀ now2,
          consumeEmailVerificationToken t (st.filter (fun r => ¬ r.token = t)) now2
            = (none, st.filter (fun r => ¬ r.token = t)) ∧
          consumePasswordResetToken t (st.filter (fun r => ¬ r.token = t)) now2
            = (none, st.filter (fun r => ¬ r.token = t)))) := by
  intro st t now
  refine ⟨?_, ?_, ?_⟩
  · intro h
    constructor <;> simp [consumeEmailVerificationToken, consumePasswordResetToken, h]
  · intro row hfind hexp
    constructor <;>
      simp [consumeEmailVerificationToken, consumePasswordResetToken, hfind, hexp]
  · intro row hfind hle
    have hnot : ¬ row.expires < now := Nat.not_lt.mpr hle
    refine ⟨?_, ?_, ?_⟩
    · simp [consumeEmailVerificationToken, hfind, hnot]
    · simp [consumePasswordResetToken, hfind, hnot]
    · intro now2
      have hmiss := findTokenRow_filter_self st t
      simp only [decide_not] at hmiss
      constructor <;>
        simp [consumeEmailVerificationToken, consumePasswordResetToken, hmiss]

/-- C2 witness: the amended theorem applied at a concrete one-row table,
covering the success branch and the subsequent not-found failure. -/
theorem C2_consume_single_use_witness :
    consumeEmailVerificationToken "t"
        [{ email := "a@x.com", token := "t", expires := 500 }] 10
      = (some "a@x.com",
          ([{ email := "a@x.com", token := "t", expires := 500 }] :
            List TokenRow).filter (fun r => ¬ r.token = "t")) ∧
    (∀ now2, consumeEmailVerificationToken "t"
        (([{ email := "a@x.com", token := "t", expires := 500 }] :
            List TokenRow).filter (fun r => ¬ r.token = "t")) now2
      = (none,
          ([{ email := "a@x.com", token := "t", expires := 500 }] :
            List TokenRow).filter (fun r => ¬ r.token = "t"))) := by
  have h := (C2_consume_single_use
      [{ email := "a@x.com", token := "t", expires := 500 }] "t" 10).2.2
      { email := "a@x.com", token := "t", expires := 500 } (by decide) (by decide)
  exact ⟨h.1, fun now2 => (h.2.2 now2).1⟩

/-- Any swallowed computation yields the successful unit result. -/
theorem swallowErr_ok (x : Except String Unit) : swallowErr x = .ok () := by
  cases x <;> rfl

/-- C9: `logActivity` never throws — whatever the header access or the
storage sink does, it returns successfully — and consequently the sign-in
callback still returns `true` and the sign-out handler still returns
successfully when the audit write fails. -/
theorem C9_audit_never_throws :
    ∀ (userId : Option String) (action : String) (details : Option String)
      (headersRes : Except String (List (String × String)))
      (sink : ActivityRow → Except String Unit),
      logActivity userId action details headersRes sink = .ok () ∧
      (∀ user, signInCallback user headersRes sink = .ok true) ∧
      (∀ token, signOutEvent token headersRes sink = .ok ()) := by
  intro userId action details headersRes sink
  have hlog : ∀ (u : Option String) (a : String) (d : Option String),
      logActivity u a d headersRes sink = .ok () := by
    intro u a d
    exact swallowErr_ok _
  refine ⟨hlog userId action details, ?_, ?_⟩
  · intro user
    simp [signInCallback, hlog]
  · intro token
    simp [signOutEvent, hlog]

/-- C8: for any non-empty requested email, the reset-request response is
`200 {ok:true}` regardless of the account store — in particular it is
identical between a store where the email has an active account and one
where it has none (or a soft-deleted one); only the out-of-band effects
(token issuance, email dispatch) differ. -/
theorem C8_reset_request_uniform_response :
    ∀ (e : String) (db1 db2 : List User) (st1 st2 : List TokenRow)
      (ft1 ft2 : String) (now1 now2 : Nat),
      truthyStr e →
      (resetRequestPOST (some e) db1 st1 ft1 now1).1
          = (resetRequestPOST (some e) db2 st2 ft2 now2).1 ∧
      (resetRequestPOST (some e) db1 st1 ft1 now1).1
          = { status := 200, body := "ok" } := by
  intro e db1 db2 st1 st2 ft1 ft2 now1 now2 he
  have hall : ∀ (db : List User) (st : List TokenRow) (ft : String) (now : Nat),
      (resetRequestPOST (some e) db st ft now).1
        = { status := 200, body := "ok" } := by
    intro db st ft now
    have hne : ¬ e = "" := by simpa [truthyStr] using he
    unfold resetRequestPOST
    simp only [truthyOptStr, hne]
    cases findUserByEmail db (normalizeEmail (some e)) with
    | none => simp [hne]
    | some user =>
        by_cases hd : user.deletedAt.isNone = true <;> simp [hd, hne]
  exact ⟨(hall db1 st1 ft1 now1).trans (hall db2 st2 ft2 now2).symm,
    hall db1 st1 ft1 now1⟩

/-- C8 witness: the response for `a@x.com` is the same whether the store
holds an active account for it or is empty. -/
theorem C8_reset_request_uniform_response_witness :
    (resetRequestPOST (some "a@x.com")
        [{ id := "u1", email := "a@x.com", passwordHash := some "H",
           emailVerified := some 1 }] [] "rt" 0).1
      = (resetRequestPOST (some "a@x.com") [] [] "rt2" 99).1 ∧
    (resetRequestPOST (some "a@x.com")
        [{ id := "u1", email := "a@x.com", passwordHash := some "H",
           emailVerified := some 1 }] [] "rt" 0).1
      = { status := 200, body := "ok" } :=
  C8_reset_request_uniform_response "a@x.com"
    [{ id := "u1", email := "a@x.com", passwordHash := some "H",
       emailVerified := some 1 }] [] [] [] "rt" "rt2" 0 99 (by decide)

/-- C10: registration (which fuses invite redemption) leaves the durable
state unchanged on every rejected request, and succeeds only when no
account with the normalized email exists and — when an invite is given —
the invite exists, is unexpired, unused, and its stored email equals the
normalized registration email. -/
theorem C10_register_preconditions :
    ∀ (b : RegBody) (st : RegState) (now : Nat) (hashFn : String → String)
      (newId freshTok : String),
      ((registerPOST b st now hashFn newId freshTok).1.status = 400 →
        (registerPOST b st now hashFn newId freshTok).2 = st) ∧
      ((registerPOST b st now hashFn newId freshTok).1.status = 200 →
        findUserByEmail st.users (normalizeEmail b.email) = none ∧
        (truthyOptStr b.invite = true →
          ∃ inv, st.invites.find? (fun i => i.token = b.invite.getD "")
              = some inv ∧
            inv.usedAt = none ∧ ¬ inv.expires < now ∧
            inv.email = normalizeEmail b.email)) := by
  intro b st now hashFn newId freshTok
  by_cases hf : (truthyOptStr b.email = false ∨ truthyOptStr b.password = false)
  · constructor
    · intro _
      simp [registerPOST, hf]
    · intro h200
      simp [registerPOST, hf] at h200
  · cases hfind : findUserByEmail st.users (normalizeEmail b.email) with
    | some u =>
        constructor
        · intro _
          simp [registerPOST, hf, hfind]
        · intro h200
          simp [registerPOST, hf, hfind] at h200
    | none =>
        by_cases hi : truthyOptStr b.invite = true
        · cases hinv : st.invites.find? (fun i => i.token = b.invite.getD "") with
          | none =>
              constructor
              · intro _
                simp [registerPOST, hf, hfind, hi, hinv]
              · intro h200
                simp [registerPOST, hf, hfind, hi, hinv] at h200
          | some inv =>
              by_cases hbad : (inv.expires < now ∨ inv.usedAt.isSome = true)
              · constructor
                · intro _
                  simp [registerPOST, hf, hfind, hi, hinv, hbad]
                · intro h200
                  simp [registerPOST, hf, hfind, hi, hinv, hbad] at h200
              · by_cases hmis : ¬ inv.email = normalizeEmail b.email
                · constructor
                  · intro _
                    simp [registerPOST, hf, hfind, hi, hinv, hbad, hmis]
                  · intro h200
                    simp [registerPOST, hf, hfind, hi, hinv, hbad, hmis] at h200
                · push_neg at hbad hmis
                  have hnl : ¬ inv.expires < now := Nat.not_lt.mpr hbad.1
                  have hun : inv.usedAt = none :=
                    Option.not_isSome_iff_eq_none.mp hbad.2
                  constructor
                  · intro h400
                    simp [registerPOST, hf, hfind, hi, hinv, hmis, hnl,
                      hun] at h400
                  · intro _
                    exact ⟨rfl, fun _ => ⟨inv, rfl, hun, hnl, hmis⟩⟩
        · constructor
          · intro h400
            simp [registerPOST, hf, hfind, hi] at h400
          · intro _
            exact ⟨rfl, fun hc => absurd hc hi⟩

/-- C10 witness: a request with a missing password is rejected and leaves
the state untouched; a successful invite registration certifies the fused
preconditions on the invite. -/
theorem C10_register_preconditions_witness :
    (registerPOST { email := some "b@x.com" }
        { users := [], invites := [], verifTokens := [] } 5 (fun s => s)
        "id1" "vt").2
      = { users := [], invites := [], verifTokens := [] } ∧
    (findUserByEmail
        ({ users := [],
           invites := [{ email := "b@x.com", role := "EDITOR",
                         token := "tkn", expires := 1000 }],
           verifTokens := [] } : RegState).users
        (normalizeEmail
          ({ email := some "b@x.com", password := some "pw",
             invite := some "tkn" } : RegBody).email) = none ∧
      (truthyOptStr
          ({ email := some "b@x.com", password := some "pw",
             invite := some "tkn" } : RegBody).invite = true →
        ∃ inv,
          ({ users := [],
             invites := [{ email := "b@x.com", role := "EDITOR",
                           token := "tkn", expires := 1000 }],
             verifTokens := [] } : RegState).invites.find?
              (fun i => i.token =
                ({ email := some "b@x.com", password := some "pw",
                   invite := some "tkn" } : RegBody).invite.getD "")
            = some inv ∧
          inv.usedAt = none ∧ ¬ inv.expires < 5 ∧
          inv.email = normalizeEmail
            ({ email := some "b@x.com", password := some "pw",
               invite := some "tkn" } : RegBody).email)) :=
  ⟨(C10_register_preconditions { email := some "b@x.com" }
      { users := [], invites := [], verifTokens := [] } 5 (fun s => s)
      "id1" "vt").1 (by decide),
   (C10_register_preconditions
      { email := some "b@x.com", password := some "pw", invite := some "tkn" }
      { users := [],
        invites := [{ email := "b@x.com", role := "EDITOR",
                      token := "tkn", expires := 1000 }],
        verifTokens := [] } 5 (fun s => s) "id1" "vt").2 (by decide)⟩

/-- C7 counterexample: after a first successful redemption of invite
`tkn`, a second registration with the same invite fails with the same
generic `"Invite invalid or expired"` response that an entirely unknown
token produces — there is no distinct `TokenAlreadyUsed` failure. -/
theorem C7_no_distinct_already_used_counterexample :
    (registerPOST
        { email := some "b@x.com", password := some "pw", invite := some "tkn" }
        { users := [],
          invites := [{ email := "b@x.com", role := "EDITOR",
                        token := "tkn", expires := 1000 }],
          verifTokens := [] } 5 (fun s => s) "id1" "vt1").1
      = { status := 200, body := "ok" } ∧
    (registerPOST
        { email := some "c@x.com", password := some "pw", invite := some "tkn" }
        (registerPOST
          { email := some "b@x.com", password := some "pw", invite := some "tkn" }
          { users := [],
            invites := [{ email := "b@x.com", role := "EDITOR",
                          token := "tkn", expires := 1000 }],
            verifTokens := [] } 5 (fun s => s) "id1" "vt1").2
        6 (fun s => s) "id2" "vt2").1
      = { status := 400, body := "Invite invalid or expired" } ∧
    (registerPOST
        { email := some "c@x.com", password := some "pw", invite := some "tkn" }
        { users := [], invites := [], verifTokens := [] }
        6 (fun s => s) "id2" "vt2").1
      = { status := 400, body := "Invite invalid or expired" } := by
  refine ⟨by decide, by decide, by decide⟩

/-- C7 (amended): the first successful consume of an Invite token (before
expiry, consumed marker null, matching email) applies exactly the email
and role recorded at issuance and sets the consumed-at marker rather than
deleting the record; any later consume of the same token value fails, but
with the same generic `"Invite invalid or expired"` response as an absent
or expired invite rather than a distinct `TokenAlreadyUsed` error. -/
theorem C7_invite_soft_consume :
    (∀ (b : RegBody) (st : RegState) (now : Nat) (hashFn : String → String)
       (newId freshTok tv : String) (inv : InviteRow),
      b.invite = some tv → truthyStr tv = true →
      truthyOptStr b.email = true → truthyOptStr b.password = true →
      findUserByEmail st.users (normalizeEmail b.email) = none →
      st.invites.find? (fun i => i.token = tv) = some inv →
      ¬ inv.expires < now → inv.usedAt = none →
      inv.email = normalizeEmail b.email →
      registerPOST b st now hashFn newId freshTok
        = ({ status := 200, body := "ok" },
           { users := st.users ++
               [{ id := newId, email := inv.email,
                  name := if truthyOptStr b.name then b.name else none,
                  passwordHash := some (hashFn (b.password.getD "")),
                  role := inv.role, status := "PENDING" }],
             invites := st.invites.map (fun i =>
               if i.token = tv then { i with usedAt := some now } else i),
             verifTokens :=
               (issueEmailVerificationToken inv.email freshTok now
                 st.verifTokens).2 })) ∧
    (∀ (b : RegBody) (st : RegState) (now : Nat) (hashFn : String → String)
       (newId freshTok tv : String) (inv : InviteRow) (u : Nat),
      b.invite = some tv → truthyStr tv = true →
      truthyOptStr b.email = true → truthyOptStr b.password = true →
      findUserByEmail st.users (normalizeEmail b.email) = none →
      st.invites.find? (fun i => i.token = tv) = some inv →
      inv.usedAt = some u →
      registerPOST b st now hashFn newId freshTok
        = ({ status := 400, body := "Invite invalid or expired" }, st)) ∧
    (∀ (b : RegBody) (st : RegState) (now : Nat) (hashFn : String → String)
       (newId freshTok tv : String),
      b.invite = some tv → truthyStr tv = true →
      truthyOptStr b.email = true → truthyOptStr b.password = true →
      findUserByEmail st.users (normalizeEmail b.email) = none →
      st.invites.find? (fun i => i.token = tv) = none →
      registerPOST b st now hashFn newId freshTok
        = ({ status := 400, body := "Invite invalid or expired" }, st)) := by
  refine ⟨?_, ?_, ?_⟩
  · intro b st now hashFn newId freshTok tv inv hb htv he hp hfind hinv hexp
      hused hmail
    have hbi : truthyOptStr (some tv) = true := by
      simpa [truthyOptStr, truthyStr] using htv
    simp [registerPOST, he, hp, hfind, hb, hbi, hinv, hexp, hused, hmail]
  · intro b st now hashFn newId freshTok tv inv u hb htv he hp hfind hinv hused
    have hbi : truthyOptStr (some tv) = true := by
      simpa [truthyOptStr, truthyStr] using htv
    simp [registerPOST, he, hp, hfind, hb, hbi, hinv, hused]
  · intro b st now hashFn newId freshTok tv hb htv he hp hfind hinv
    have hbi : truthyOptStr (some tv) = true := by
      simpa [truthyOptStr, truthyStr] using htv
    simp [registerPOST, he, hp, hfind, hb, hbi, hinv]

/-- C7 witness: the first redemption of a concrete invite creates the
EDITOR account for the invited email and marks the invite used; with the
marker set, a repeat redemption for a fresh email fails with the generic
error; so does a redemption of an absent token. -/
theorem C7_invite_soft_consume_witness :
    registerPOST
        { email := some "b@x.com", password := some "pw", invite := some "tkn" }
        { users := [],
          invites := [{ email := "b@x.com", role := "EDITOR",
                        token := "tkn", expires := 1000 }],
          verifTokens := [] } 5 (fun s => s) "id1" "vt1"
      = ({ status := 200, body := "ok" },
         { users := [{ id := "id1", email := "b@x.com",
                       passwordHash := some "pw", role := "EDITOR",
                       status := "PENDING" }],
           invites := [{ email := "b@x.com", role := "EDITOR",
                         token := "tkn", expires := 1000, usedAt := some 5 }],
           verifTokens := [{ email := "b@x.com", token := "vt1",
                             expires := 5 + 1000 * 60 * 60 * 24 }] }) ∧
    registerPOST
        { email := some "c@x.com", password := some "pw", invite := some "tkn" }
        { users := [],
          invites := [{ email := "b@x.com", role := "EDITOR", token := "tkn",
                        expires := 1000, usedAt := some 5 }],
          verifTokens := [] } 6 (fun s => s) "id2" "vt2"
      = ({ status := 400, body := "Invite invalid or expired" },
         { users := [],
           invites := [{ email := "b@x.com", role := "EDITOR", token := "tkn",
                         expires := 1000, usedAt := some 5 }],
           verifTokens := [] }) := by
  constructor
  · have h := C7_invite_soft_consume.1
      { email := some "b@x.com", password := some "pw", invite := some "tkn" }
      { users := [],
        invites := [{ email := "b@x.com", role := "EDITOR",
                      token := "tkn", expires := 1000 }],
        verifTokens := [] } 5 (fun s => s) "id1" "vt1" "tkn"
      { email := "b@x.com", role := "EDITOR", token := "tkn",
        expires := 1000 }
      rfl (by decide) (by decide) (by decide) (by decide) (by decide)
      (by decide) rfl (by decide)
    simpa [issueEmailVerificationToken] using h
  · exact C7_invite_soft_consume.2.1
      { email := some "c@x.com", password := some "pw", invite := some "tkn" }
      { users := [],
        invites := [{ email := "b@x.com", role := "EDITOR", token := "tkn",
                      expires := 1000, usedAt := some 5 }],
        verifTokens := [] } 6 (fun s => s) "id2" "vt2" "tkn"
      { email := "b@x.com", role := "EDITOR", token := "tkn",
        expires := 1000, usedAt := some 5 } 5
      rfl (by decide) (by decide) (by decide) (by decide) (by decide) rfl

end Agritourism
